import Mathlib

/-!
Shallow embedding of the EduTrack role-scoped access-control layer
(`app.py`).  Each Flask request handler that the claims reference is
translated into a pure Lean function from the authenticated actor, the
parsed request payload and the database state to a response together with
the successor database state.  Role checks are string comparisons, exactly
as in the source.
-/

namespace EduTrack

/-- The authenticated caller (`current_user`): id, display name (nullable
`User.name` column) and the role name string of its linked `Role` row. -/
structure Actor where
  id : Nat
  name : Option String
  role : String
deriving DecidableEq

/-- A row of the `student` table (`class Student`).  Dates are modelled as
(year, month, day) triples. -/
structure StudentRow where
  id : Nat
  admission_no : Option String
  name : Option String
  class_id : Option Nat
  dob : Option (Nat × Nat × Nat)
  gender : Option String
deriving DecidableEq

/-- A row of the `class` table (`class Class`). -/
structure ClassRow where
  id : Nat
  name : Option String
  teacher_id : Option Nat
deriving DecidableEq

/-- A row of the `user` table (`class User`), with the role name string of
its linked `Role` row inlined (the handlers only ever read `role.name`). -/
structure UserRow where
  id : Nat
  name : Option String
  email : String
  role : String
deriving DecidableEq

/-- A row of the `subject` table (`class Subject`). -/
structure SubjectRow where
  id : Nat
  name : String
  code : String
  description : Option String
  created_by : Option Nat
deriving DecidableEq

/-- A row of the `grade` table (`class Grade`).  Scores are rationals
standing for the Python floats. -/
structure GradeRow where
  id : Nat
  student_id : Nat
  subject_id : Nat
  teacher_id : Nat
  grade_value : ℚ
  max_grade : ℚ
  grade_type : String
  description : Option String
  date_given : Option (Nat × Nat × Nat)
deriving DecidableEq

/-- The database state: one list per table, the two many-to-many
association tables (`teacher_subject` as (teacher user id, subject id)
pairs and `parent_student` as (parent user id, student id) pairs), the
next auto-increment primary key, and a counter of `db.session.commit()`
calls so that "no mutation was committed" is expressible. -/
structure DB where
  students : List StudentRow
  classes : List ClassRow
  users : List UserRow
  subjects : List SubjectRow
  teacher_subject : List (Nat × Nat)
  parent_student : List (Nat × Nat)
  grades : List GradeRow
  nextId : Nat
  commits : Nat
deriving DecidableEq

/-- Handler outcome: the 403 / redirect-with-"Access denied" outcome, the
`get_or_404` miss, the duplicate-name/code re-render, or a normal response
carrying its payload. -/
inductive Response (α : Type) where
  | accessDenied : Response α
  | notFound : Response α
  | conflict : Response α
  | ok : α → Response α
deriving DecidableEq

/-- `datetime.strptime(s, "%Y-%m-%d").date()`: three dash-separated
numeric fields with a plausible month and day, else failure. -/
def parseDateYMD (s : String) : Option (Nat × Nat × Nat) :=
  match s.splitOn "-" with
  | [y, m, d] =>
    match y.toNat?, m.toNat?, d.toNat? with
    | some yn, some mn, some dn =>
        if 1 ≤ mn ∧ mn ≤ 12 ∧ 1 ≤ dn ∧ dn ≤ 31 then some (yn, mn, dn) else none
    | _, _, _ => none
  | _ => none

/-- `data.get(key, old)` where the column itself is nullable: a value
present in the request wins, otherwise the stored value is kept. -/
def updOpt {α : Type} (new old : Option α) : Option α :=
  match new with
  | some v => some v
  | none => old

/-! ## Students page API (`/api/students`, app.py part 5) -/

/-- `GET /api/students` (`api_students`): role gate, then the full
student table. -/
def api_students_get (actor : Actor) (db : DB) : Response (List StudentRow) × DB :=
  if actor.role ∉ (["Admin", "Teacher"] : List String) then (.accessDenied, db)
  else (.ok db.students, db)

/-- The JSON body accepted by student create/update. -/
structure StudentReq where
  admission_no : Option String
  name : Option String
  class_id : Option Nat
  dob : Option String
  gender : Option String
deriving DecidableEq

/-- `POST /api/students` (`api_students`): role gate, parse `dob` with a
silent fallback to `None`, insert the new row. -/
def api_students_post (actor : Actor) (req : StudentReq) (db : DB) :
    Response StudentRow × DB :=
  if actor.role ∉ (["Admin", "Teacher"] : List String) then (.accessDenied, db)
  else
    let dob_parsed : Option (Nat × Nat × Nat) :=
      match req.dob with
      | some s => if s = "" then none else parseDateYMD s
      | none => none
    let s : StudentRow :=
      ⟨db.nextId, req.admission_no, req.name, req.class_id, dob_parsed, req.gender⟩
    (.ok s, { db with students := db.students ++ [s], nextId := db.nextId + 1,
                      commits := db.commits + 1 })

/-- `GET /api/students/<id>` (`get_student`). -/
def get_student (actor : Actor) (id : Nat) (db : DB) : Response StudentRow × DB :=
  if actor.role ∉ (["Admin", "Teacher"] : List String) then (.accessDenied, db)
  else
    match db.students.find? (fun s => s.id == id) with
    | none => (.notFound, db)
    | some s => (.ok s, db)

/-- `PUT /api/students/<id>` (`update_student`): role gate, `get_or_404`,
field-wise `data.get(k, old)` update, `dob` parsed with errors ignored. -/
def update_student (actor : Actor) (id : Nat) (req : StudentReq) (db : DB) :
    Response StudentRow × DB :=
  if actor.role ∉ (["Admin", "Teacher"] : List String) then (.accessDenied, db)
  else
    match db.students.find? (fun s => s.id == id) with
    | none => (.notFound, db)
    | some student =>
      let s1 : StudentRow :=
        { student with
          admission_no := updOpt req.admission_no student.admission_no,
          name := updOpt req.name student.name,
          class_id := updOpt req.class_id student.class_id,
          gender := updOpt req.gender student.gender }
      let s2 : StudentRow :=
        match req.dob with
        | some ds =>
          if ds = "" then s1
          else
            match parseDateYMD ds with
            | some d => { s1 with dob := some d }
            | none => s1
        | none => s1
      (.ok s2, { db with students := db.students.map (fun s => if s.id == id then s2 else s),
                         commits := db.commits + 1 })

/-- `DELETE /api/students/<id>` (`delete_student`): role gate,
`get_or_404`, unconditional delete. -/
def delete_student (actor : Actor) (id : Nat) (db : DB) : Response String × DB :=
  if actor.role ∉ (["Admin", "Teacher"] : List String) then (.accessDenied, db)
  else
    match db.students.find? (fun s => s.id == id) with
    | none => (.notFound, db)
    | some _ =>
      (.ok "Deleted successfully",
       { db with students := db.students.filter (fun s => s.id ≠ id),
                 commits := db.commits + 1 })

/-! ## Classes API (`/api/classes`) -/

/-- `GET /api/classes` (`api_classes`). -/
def api_classes_get (actor : Actor) (db : DB) : Response (List ClassRow) × DB :=
  if actor.role ∉ (["Admin", "Teacher"] : List String) then (.accessDenied, db)
  else (.ok db.classes, db)

/-- `POST /api/classes` (`api_classes`): inserts `Class(name=...)` with no
teacher. -/
def api_classes_post (actor : Actor) (name : Option String) (db : DB) :
    Response ClassRow × DB :=
  if actor.role ∉ (["Admin", "Teacher"] : List String) then (.accessDenied, db)
  else
    let c : ClassRow := ⟨db.nextId, name, none⟩
    (.ok c, { db with classes := db.classes ++ [c], nextId := db.nextId + 1,
                      commits := db.commits + 1 })

/-! ## Admin teacher management (`/teachers`, `/teacher/...`) -/

/-- `GET /teachers` (`teachers`): Admins only; lists the `User` rows whose
role is Teacher. -/
def teachers (actor : Actor) (db : DB) : Response (List UserRow) × DB :=
  if actor.role ≠ "Admin" then (.accessDenied, db)
  else (.ok (db.users.filter (fun u => u.role == "Teacher")), db)

/-- `POST /teacher/add` (`add_teacher`): Admins only; inserts a new
Teacher-role `User`. -/
def add_teacher (actor : Actor) (name email : String) (db : DB) :
    Response UserRow × DB :=
  if actor.role ≠ "Admin" then (.accessDenied, db)
  else
    let u : UserRow := ⟨db.nextId, some name, email, "Teacher"⟩
    (.ok u, { db with users := db.users ++ [u], nextId := db.nextId + 1,
                      commits := db.commits + 1 })

/-- `POST /teacher/edit/<id>` (`edit_teacher`): Admins only; updates name
and email of the `User` row. -/
def edit_teacher (actor : Actor) (id : Nat) (name email : String) (db : DB) :
    Response UserRow × DB :=
  if actor.role ≠ "Admin" then (.accessDenied, db)
  else
    match db.users.find? (fun u => u.id == id) with
    | none => (.notFound, db)
    | some u =>
      let u1 : UserRow := { u with name := some name, email := email }
      (.ok u1, { db with users := db.users.map (fun v => if v.id == id then u1 else v),
                         commits := db.commits + 1 })

/-- `POST /teacher/delete/<id>` (`delete_teacher`): Admins only. -/
def delete_teacher (actor : Actor) (id : Nat) (db : DB) : Response String × DB :=
  if actor.role ≠ "Admin" then (.accessDenied, db)
  else
    match db.users.find? (fun u => u.id == id) with
    | none => (.notFound, db)
    | some _ =>
      (.ok "Teacher deleted successfully!",
       { db with users := db.users.filter (fun u => u.id ≠ id),
                 commits := db.commits + 1 })

/-! ## Subject management (`/subjects`, `/subject/...`) -/

/-- The subjects a user is assigned to via the `teacher_subject`
association table (`current_user.subjects.all()`). -/
def assignedSubjects (db : DB) (uid : Nat) : List SubjectRow :=
  db.subjects.filter (fun s => db.teacher_subject.contains (uid, s.id))

/-- `GET /subjects` (`subjects`): all subjects, plus the current teacher's
assigned subjects (empty for an Admin). -/
def subjects (actor : Actor) (db : DB) :
    Response (List SubjectRow × List SubjectRow) × DB :=
  if actor.role ∉ (["Admin", "Teacher"] : List String) then (.accessDenied, db)
  else
    let my_subjects :=
      if actor.role == "Teacher" then assignedSubjects db actor.id else []
    (.ok (db.subjects, my_subjects), db)

/-- `POST /subject/add` (`add_subject`): role gate, duplicate name/code
checks, insert with `created_by = current_user.id`, then a teacher creator
is auto-assigned to the new subject. -/
def add_subject (actor : Actor) (name code description : String) (db : DB) :
    Response SubjectRow × DB :=
  if actor.role ∉ (["Admin", "Teacher"] : List String) then (.accessDenied, db)
  else if (db.subjects.find? (fun s => s.name == name)).isSome then (.conflict, db)
  else if (db.subjects.find? (fun s => s.code == code)).isSome then (.conflict, db)
  else
    let subj : SubjectRow := ⟨db.nextId, name, code, some description, some actor.id⟩
    let db1 : DB := { db with subjects := db.subjects ++ [subj],
                              nextId := db.nextId + 1, commits := db.commits + 1 }
    if actor.role == "Teacher" then
      (.ok subj, { db1 with teacher_subject := db1.teacher_subject ++ [(actor.id, subj.id)],
                            commits := db1.commits + 1 })
    else (.ok subj, db1)

/-- The successful tail of `edit_subject`: overwrite name, code and
description of the targeted row and commit. -/
def edit_subject_apply (subject : SubjectRow) (id : Nat)
    (name code description : String) (db : DB) : Response SubjectRow × DB :=
  let s1 : SubjectRow := { subject with name := name, code := code,
                                        description := some description }
  (.ok s1, { db with subjects := db.subjects.map (fun s => if s.id == id then s1 else s),
                     commits := db.commits + 1 })

/-- `POST /subject/edit/<id>` (`edit_subject`): role gate, `get_or_404`,
then the teacher ownership gate — deny unless the teacher created the
subject or is assigned to it — then the two duplicate checks in sequence
(`existing and existing.id != id`, name first, then code) and the update. -/
def edit_subject (actor : Actor) (id : Nat) (name code description : String)
    (db : DB) : Response SubjectRow × DB :=
  if actor.role ∉ (["Admin", "Teacher"] : List String) then (.accessDenied, db)
  else
    match db.subjects.find? (fun s => s.id == id) with
    | none => (.notFound, db)
    | some subject =>
      if actor.role = "Teacher" ∧ subject.created_by ≠ some actor.id ∧
          (actor.id, subject.id) ∉ db.teacher_subject then (.accessDenied, db)
      else if (db.subjects.find? (fun s => s.name == name)).any
          (fun existing_name => existing_name.id != id) then (.conflict, db)
      else if (db.subjects.find? (fun s => s.code == code)).any
          (fun existing_code => existing_code.id != id) then (.conflict, db)
      else edit_subject_apply subject id name code description db

/-- `POST /subject/delete/<id>` (`delete_subject`): role gate,
`get_or_404`, teachers may delete only subjects they created; the delete
also drops the subject's `teacher_subject` association rows. -/
def delete_subject (actor : Actor) (id : Nat) (db : DB) : Response String × DB :=
  if actor.role ∉ (["Admin", "Teacher"] : List String) then (.accessDenied, db)
  else
    match db.subjects.find? (fun s => s.id == id) with
    | none => (.notFound, db)
    | some subject =>
      if actor.role = "Teacher" ∧ subject.created_by ≠ some actor.id then
        (.accessDenied, db)
      else
        (.ok "Subject deleted successfully!",
         { db with subjects := db.subjects.filter (fun s => s.id ≠ id),
                   teacher_subject := db.teacher_subject.filter (fun p => p.2 ≠ id),
                   commits := db.commits + 1 })

/-- `POST /subject/<id>/assign` (`assign_subject`): Teachers only; a
subject already assigned is left alone (info flash, no commit), otherwise
the association row is appended and committed. -/
def assign_subject (actor : Actor) (id : Nat) (db : DB) : Response String × DB :=
  if actor.role ≠ "Teacher" then (.accessDenied, db)
  else
    match db.subjects.find? (fun s => s.id == id) with
    | none => (.notFound, db)
    | some subject =>
      if (actor.id, subject.id) ∈ db.teacher_subject then
        (.ok "You are already assigned to this subject!", db)
      else
        (.ok "Successfully assigned!",
         { db with teacher_subject := db.teacher_subject ++ [(actor.id, subject.id)],
                   commits := db.commits + 1 })

/-- `POST /subject/<id>/unassign` (`unassign_subject`): Teachers only; a
subject not assigned is left alone (info flash, no commit), otherwise the
association row is removed and committed. -/
def unassign_subject (actor : Actor) (id : Nat) (db : DB) : Response String × DB :=
  if actor.role ≠ "Teacher" then (.accessDenied, db)
  else
    match db.subjects.find? (fun s => s.id == id) with
    | none => (.notFound, db)
    | some subject =>
      if (actor.id, subject.id) ∉ db.teacher_subject then
        (.ok "You are not assigned to this subject!", db)
      else
        (.ok "Successfully unassigned!",
         { db with teacher_subject :=
                     db.teacher_subject.filter (fun p => p ≠ (actor.id, subject.id)),
                   commits := db.commits + 1 })

/-! ## Grade management (`/grades`, `/grade/...`, `/api/grades`) -/

/-- `Grade.to_dict`'s percentage computation (app.py line 131):
`(grade_value / max_grade * 100) if max_grade > 0 else 0`.  The value is
then rounded to two decimals for display only. -/
def GradeRow.percentage (g : GradeRow) : ℚ :=
  if g.max_grade > 0 then g.grade_value / g.max_grade * 100 else 0

/-- The student ids linked to a parent through the `parent_student`
association table (`current_user.children.all()`, projected to ids). -/
def childIds (db : DB) (pid : Nat) : List Nat :=
  (db.parent_student.filter (fun p => p.1 == pid)).map (fun p => p.2)

/-- The role-scoped grade list shared by the `/grades` page and
`GET /api/grades`: teachers see grades they gave; a student is resolved to
the first `Student` row whose name equals the actor's display name and
sees that student's grades (none when no row matches); a parent sees the
grades of the students in its guardianship set (none when it has no
children); an admin sees everything. -/
def gradesForActor (actor : Actor) (db : DB) : List GradeRow :=
  if actor.role == "Teacher" then
    db.grades.filter (fun g => g.teacher_id == actor.id)
  else if actor.role == "Student" then
    match db.students.find? (fun s => s.name == actor.name) with
    | some student => db.grades.filter (fun g => g.student_id == student.id)
    | none => []
  else if actor.role == "Parent" then
    let children := childIds db actor.id
    if children ≠ [] then db.grades.filter (fun g => children.contains g.student_id)
    else []
  else
    db.grades

/-- `GET /api/grades` (`api_grades`): role gate over the four roles, then
the role-scoped grade list. -/
def api_grades (actor : Actor) (db : DB) : Response (List GradeRow) × DB :=
  if actor.role ∉ (["Admin", "Teacher", "Student", "Parent"] : List String) then
    (.accessDenied, db)
  else (.ok (gradesForActor actor db), db)

/-- The form fields of `POST /grade/add` and `POST /grade/edit/<id>`.
`max_grade`, `date_given` and `teacher_id` are optional with handler-side
defaults; numeric and date fields arrive already parsed. -/
structure GradeReq where
  student_id : Nat
  subject_id : Nat
  grade_value : ℚ
  max_grade : Option ℚ
  grade_type : String
  description : String
  date_given : Option (Nat × Nat × Nat)
  teacher_id : Option Nat
deriving DecidableEq

/-- `POST /grade/add` (`add_grade`): role gate; `date_given` defaults to
today; the grading teacher is forced to the current user for a Teacher
actor and otherwise taken from the form (defaulting to the current user);
the new row is inserted. -/
def add_grade (actor : Actor) (today : Nat × Nat × Nat) (req : GradeReq)
    (db : DB) : Response GradeRow × DB :=
  if actor.role ∉ (["Admin", "Teacher"] : List String) then (.accessDenied, db)
  else
    let date_given := req.date_given.getD today
    let teacher_id :=
      if actor.role == "Teacher" then actor.id else req.teacher_id.getD actor.id
    let g : GradeRow :=
      ⟨db.nextId, req.student_id, req.subject_id, teacher_id, req.grade_value,
       req.max_grade.getD 100, req.grade_type, some req.description, some date_given⟩
    (.ok g, { db with grades := db.grades ++ [g], nextId := db.nextId + 1,
                      commits := db.commits + 1 })

/-- `POST /grade/edit/<id>` (`edit_grade`): role gate, `get_or_404`, a
teacher may edit only grades with its own `teacher_id`; all form fields
overwrite the row, `date_given` only when supplied, and only an Admin may
overwrite `teacher_id` (from the form, defaulting to the stored value). -/
def edit_grade (actor : Actor) (id : Nat) (req : GradeReq) (db : DB) :
    Response GradeRow × DB :=
  if actor.role ∉ (["Admin", "Teacher"] : List String) then (.accessDenied, db)
  else
    match db.grades.find? (fun g => g.id == id) with
    | none => (.notFound, db)
    | some grade =>
      if actor.role = "Teacher" ∧ grade.teacher_id ≠ actor.id then (.accessDenied, db)
      else
        let g1 : GradeRow :=
          { grade with student_id := req.student_id, subject_id := req.subject_id,
                       grade_value := req.grade_value,
                       max_grade := req.max_grade.getD 100,
                       grade_type := req.grade_type,
                       description := some req.description }
        let g2 : GradeRow :=
          match req.date_given with
          | some d => { g1 with date_given := some d }
          | none => g1
        let g3 : GradeRow :=
          if actor.role = "Admin" then { g2 with teacher_id := req.teacher_id.getD g2.teacher_id }
          else g2
        (.ok g3, { db with grades := db.grades.map (fun g => if g.id == id then g3 else g),
                           commits := db.commits + 1 })

/-- `POST /grade/delete/<id>` (`delete_grade`): role gate, `get_or_404`,
a teacher may delete only grades with its own `teacher_id`. -/
def delete_grade (actor : Actor) (id : Nat) (db : DB) : Response String × DB :=
  if actor.role ∉ (["Admin", "Teacher"] : List String) then (.accessDenied, db)
  else
    match db.grades.find? (fun g => g.id == id) with
    | none => (.notFound, db)
    | some grade =>
      if actor.role = "Teacher" ∧ grade.teacher_id ≠ actor.id then (.accessDenied, db)
      else
        (.ok "Grade deleted successfully!",
         { db with grades := db.grades.filter (fun g => g.id ≠ id),
                   commits := db.commits + 1 })

/-! ## Concrete sample data for witnesses -/

/-- Students 7 and 8 deliberately share the display name "Grace Wilson". -/
def exStudent7 : StudentRow := ⟨7, some "S007", some "Grace Wilson", some 1, none, some "Female"⟩

/-- Second student with the duplicated name, later in table order. -/
def exStudent8 : StudentRow := ⟨8, some "S008", some "Grace Wilson", none, none, some "Male"⟩

/-- Subject created by teacher 5; teacher 4 is neither creator nor assigned. -/
def exSubjPhysics : SubjectRow := ⟨1, "Physics", "PHY", some "Physical sciences", some 5⟩

/-- Subject created by teacher 5 but assigned to teacher 4. -/
def exSubjMath : SubjectRow := ⟨2, "Mathematics", "MATH", none, some 5⟩

/-- Grade given by teacher 4 to student 7. -/
def exGrade1 : GradeRow := ⟨1, 7, 1, 4, 85, 100, "Exam", none, none⟩

/-- Grade given by teacher 5 to student 8. -/
def exGrade2 : GradeRow := ⟨2, 8, 1, 5, 70, 100, "Exam", none, none⟩

/-- A small database: parent 9 guardians student 7 only; teacher 4 is
assigned subject 2 only; class 1 belongs to teacher 5. -/
def exDB : DB :=
  ⟨[exStudent7, exStudent8],
   [⟨1, some "Grade 1A", some 5⟩],
   [⟨1, some "Admin User", "admin@example.com", "Admin"⟩,
    ⟨4, some "Emily Davis", "emily.davis@edutrack.com", "Teacher"⟩,
    ⟨5, some "Michael Johnson", "michael.johnson@edutrack.com", "Teacher"⟩,
    ⟨9, some "Mary Smith", "mary.smith@parent.com", "Parent"⟩,
    ⟨10, some "Grace Wilson", "grace.wilson@student.edu", "Student"⟩],
   [exSubjPhysics, exSubjMath],
   [(4, 2)],
   [(9, 7)],
   [exGrade1, exGrade2],
   100, 0⟩

/-- Admin actor matching user 1. -/
def aAdmin : Actor := ⟨1, some "Admin User", "Admin"⟩

/-- Teacher actor matching user 4. -/
def aTeacher4 : Actor := ⟨4, some "Emily Davis", "Teacher"⟩

/-- Teacher actor with id 2: created nothing, assigned nothing, owns no
class — unrelated to every row of `exDB`. -/
def aTeacher2 : Actor := ⟨2, some "New Teacher", "Teacher"⟩

/-- Student-role actor whose display name matches students 7 and 8. -/
def aStudent : Actor := ⟨10, some "Grace Wilson", "Student"⟩

/-- Parent actor matching user 9 (guardian of student 7). -/
def aParent : Actor := ⟨9, some "Mary Smith", "Parent"⟩

/-- A sample student update payload that only renames the student. -/
def exStudentReq : StudentReq := ⟨none, some "New Name", none, none, none⟩

/-- A sample grade payload whose form-supplied `teacher_id` is 5. -/
def exGradeReq : GradeReq := ⟨7, 1, 50, some 60, "Quiz", "desc", none, some 5⟩

/-! ## Claims -/

/-- C1: every actor whose role is Student or Parent is denied every
existing management handler on the Student, ClassRoom, Teacher (user) and
Subject entities — list, read, create, update, delete (plus the
teacher-only assign/unassign) — with the database left untouched.
ClassRoom update/delete and single-row reads of ClassRoom, Teacher and
Subject have no route at all, so no handler can read or mutate them. -/
theorem C1_student_parent_management_denied (actor : Actor)
    (h : actor.role = "Student" ∨ actor.role = "Parent")
    (db : DB) (id : Nat) (sreq : StudentReq) (cname : Option String)
    (n e name code description : String) :
    api_students_get actor db = (.accessDenied, db) ∧
    api_students_post actor sreq db = (.accessDenied, db) ∧
    get_student actor id db = (.accessDenied, db) ∧
    update_student actor id sreq db = (.accessDenied, db) ∧
    delete_student actor id db = (.accessDenied, db) ∧
    api_classes_get actor db = (.accessDenied, db) ∧
    api_classes_post actor cname db = (.accessDenied, db) ∧
    teachers actor db = (.accessDenied, db) ∧
    add_teacher actor n e db = (.accessDenied, db) ∧
    edit_teacher actor id n e db = (.accessDenied, db) ∧
    delete_teacher actor id db = (.accessDenied, db) ∧
    subjects actor db = (.accessDenied, db) ∧
    add_subject actor name code description db = (.accessDenied, db) ∧
    edit_subject actor id name code description db = (.accessDenied, db) ∧
    delete_subject actor id db = (.accessDenied, db) ∧
    assign_subject actor id db = (.accessDenied, db) ∧
    unassign_subject actor id db = (.accessDenied, db) := by
  rcases h with h | h <;>
    simp [api_students_get, api_students_post, get_student, update_student,
          delete_student, api_classes_get, api_classes_post, teachers,
          add_teacher, edit_teacher, delete_teacher, subjects, add_subject,
          edit_subject, delete_subject, assign_subject, unassign_subject, h]

/-- Witness for C1: the Student-role and Parent-role sample actors are
denied on representative handlers over the sample database. -/
theorem C1_witness :
    api_students_get aStudent exDB = (.accessDenied, exDB) ∧
    delete_subject aStudent 1 exDB = (.accessDenied, exDB) ∧
    update_student aParent 7 exStudentReq exDB = (.accessDenied, exDB) ∧
    teachers aParent exDB = (.accessDenied, exDB) := by
  refine ⟨?_, ?_, ?_, ?_⟩
  · exact (C1_student_parent_management_denied aStudent (Or.inl rfl) exDB 1
      exStudentReq none "n" "e" "nm" "cd" "d").1
  · exact (C1_student_parent_management_denied aStudent (Or.inl rfl) exDB 1
      exStudentReq none "n" "e" "nm" "cd" "d").2.2.2.2.2.2.2.2.2.2.2.2.2.2.1
  · exact (C1_student_parent_management_denied aParent (Or.inr rfl) exDB 7
      exStudentReq none "n" "e" "nm" "cd" "d").2.2.2.1
  · exact (C1_student_parent_management_denied aParent (Or.inr rfl) exDB 7
      exStudentReq none "n" "e" "nm" "cd" "d").2.2.2.2.2.2.2.1

/-- For a Teacher-role actor and a resolved subject, `edit_subject`
produces the access-denied outcome exactly when the actor neither created
the subject nor is assigned to it. -/
theorem edit_subject_denied_iff (actor : Actor) (db : DB) (s : SubjectRow)
    (hs : db.subjects.find? (fun t => t.id == s.id) = some s)
    (hrole : actor.role = "Teacher") (name code description : String) :
    (edit_subject actor s.id name code description db).1 = Response.accessDenied ↔
      (s.created_by ≠ some actor.id ∧ (actor.id, s.id) ∉ db.teacher_subject) := by
  unfold edit_subject
  rw [if_neg (by simp [hrole])]
  rw [hs]
  dsimp only
  by_cases hd : s.created_by ≠ some actor.id ∧ (actor.id, s.id) ∉ db.teacher_subject
  · rw [if_pos ⟨hrole, hd.1, hd.2⟩]
    simpa using hd
  · rw [if_neg (fun hc => hd ⟨hc.2.1, hc.2.2⟩)]
    simp only [iff_false_intro hd, iff_false]
    split
    · simp
    · split
      · simp
      · simp [edit_subject_apply]

/-- For a Teacher-role actor and a resolved subject, `delete_subject`
produces the access-denied outcome exactly when the actor did not create
the subject. -/
theorem delete_subject_denied_iff (actor : Actor) (db : DB) (s : SubjectRow)
    (hs : db.subjects.find? (fun t => t.id == s.id) = some s)
    (hrole : actor.role = "Teacher") :
    (delete_subject actor s.id db).1 = Response.accessDenied ↔
      s.created_by ≠ some actor.id := by
  unfold delete_subject
  rw [if_neg (by simp [hrole])]
  rw [hs]
  dsimp only
  by_cases hd : s.created_by ≠ some actor.id
  · rw [if_pos ⟨hrole, hd⟩]
    simpa using hd
  · rw [if_neg (fun hc => hd hc.2)]
    simp [hd]

/-- C2: for a Teacher-role actor and an existing subject, the edit action
is allowed (not access-denied) iff the actor created the subject or is
assigned to it, while delete is allowed iff the actor created it; hence
delete-allowed implies edit-allowed, and the converse fails on a concrete
configuration (assigned but not creator). -/
theorem C2_subject_edit_delete_ownership (actor : Actor)
    (h : actor.role = "Teacher") (db : DB) (s : SubjectRow)
    (hs : db.subjects.find? (fun t => t.id == s.id) = some s)
    (name code description : String) :
    ((edit_subject actor s.id name code description db).1 ≠ Response.accessDenied ↔
        (s.created_by = some actor.id ∨ (actor.id, s.id) ∈ db.teacher_subject)) ∧
    ((delete_subject actor s.id db).1 ≠ Response.accessDenied ↔
        s.created_by = some actor.id) ∧
    ((delete_subject actor s.id db).1 ≠ Response.accessDenied →
        (edit_subject actor s.id name code description db).1 ≠ Response.accessDenied) ∧
    (∃ (a : Actor) (d : DB) (t : SubjectRow) (nm cd de : String),
        a.role = "Teacher" ∧ d.subjects.find? (fun u => u.id == t.id) = some t ∧
        (edit_subject a t.id nm cd de d).1 ≠ Response.accessDenied ∧
        (delete_subject a t.id d).1 = Response.accessDenied) := by
  have he := edit_subject_denied_iff actor db s hs h name code description
  have hd := delete_subject_denied_iff actor db s hs h
  refine ⟨?_, ?_, ?_, ?_⟩
  · rw [Ne, he]
    tauto
  · rw [Ne, hd]
    tauto
  · rw [Ne, Ne, he, hd]
    tauto
  · refine ⟨aTeacher4, exDB, exSubjMath, "Mathematics", "MATH", "", rfl, by decide, ?_, ?_⟩
    · rw [Ne, edit_subject_denied_iff aTeacher4 exDB exSubjMath (by decide) rfl]
      decide
    · rw [delete_subject_denied_iff aTeacher4 exDB exSubjMath (by decide) rfl]
      decide

/-- Witness for C2: teacher 4 is assigned to subject 2 but did not create
it, so edit is allowed while delete is denied. -/
theorem C2_witness :
    ((edit_subject aTeacher4 exSubjMath.id "Maths" "MTH" "" exDB).1 ≠
        Response.accessDenied ↔
      (exSubjMath.created_by = some aTeacher4.id ∨
        (aTeacher4.id, exSubjMath.id) ∈ exDB.teacher_subject)) ∧
    ((delete_subject aTeacher4 exSubjMath.id exDB).1 ≠ Response.accessDenied ↔
      exSubjMath.created_by = some aTeacher4.id) :=
  ⟨(C2_subject_edit_delete_ownership aTeacher4 rfl exDB exSubjMath (by decide)
      "Maths" "MTH" "").1,
   (C2_subject_edit_delete_ownership aTeacher4 rfl exDB exSubjMath (by decide)
      "Maths" "MTH" "").2.1⟩

/-- C3: for an existing grade, a Teacher-role actor may edit and delete it
iff the actor gave the grade (`grade.teacher_id == actor.id`), and a
Teacher edit that succeeds never changes `teacher_id`; an Admin-role actor
may edit and delete any grade, and a form-supplied `teacher_id` is applied
by an Admin edit. -/
theorem C3_grade_edit_delete_ownership (actor : Actor) (db : DB) (g : GradeRow)
    (hg : db.grades.find? (fun t => t.id == g.id) = some g) (req : GradeReq) :
    (actor.role = "Teacher" →
      (((edit_grade actor g.id req db).1 ≠ Response.accessDenied ↔
          g.teacher_id = actor.id) ∧
       ((delete_grade actor g.id db).1 ≠ Response.accessDenied ↔
          g.teacher_id = actor.id) ∧
       (∀ g', (edit_grade actor g.id req db).1 = Response.ok g' →
          g'.teacher_id = g.teacher_id))) ∧
    (actor.role = "Admin" →
      ((edit_grade actor g.id req db).1 ≠ Response.accessDenied ∧
       (delete_grade actor g.id db).1 ≠ Response.accessDenied ∧
       (∀ tid, req.teacher_id = some tid →
          ∀ g', (edit_grade actor g.id req db).1 = Response.ok g' →
            g'.teacher_id = tid))) := by
  constructor
  · intro h
    by_cases hown : g.teacher_id = actor.id
    · refine ⟨by simp [edit_grade, hg, h, hown], by simp [delete_grade, hg, h, hown], ?_⟩
      intro g' hg'
      rcases hd : req.date_given with _ | d <;>
        · simp only [edit_grade, hg, h, hown, hd] at hg'
          simp only [show ¬(("Teacher" : String) ∉ (["Admin", "Teacher"] : List String))
            from by simp, if_false, reduceIte] at hg'
          simp at hg'
          rw [← hg']
          simp [hown]
    · refine ⟨by simp [edit_grade, hg, h, hown], by simp [delete_grade, hg, h, hown], ?_⟩
      intro g' hg'
      simp [edit_grade, hg, h, hown] at hg'
  · intro h
    refine ⟨?_, by simp [delete_grade, hg, h], ?_⟩
    · rcases hd : req.date_given with _ | d <;> simp [edit_grade, hg, h, hd]
    · intro tid htid g' hg'
      rcases hd : req.date_given with _ | d <;>
        · simp only [edit_grade, hg, h, hd] at hg'
          simp at hg'
          rw [← hg']
          simp [htid]

/-- Witness for C3: teacher 4 owns grade 1 (edit and delete allowed) and
an Admin edit of grade 1 with a form-supplied teacher id applies it. -/
theorem C3_witness :
    ((edit_grade aTeacher4 exGrade1.id exGradeReq exDB).1 ≠ Response.accessDenied ↔
        exGrade1.teacher_id = aTeacher4.id) ∧
    ((edit_grade aAdmin exGrade1.id exGradeReq exDB).1 ≠ Response.accessDenied) :=
  ⟨((C3_grade_edit_delete_ownership aTeacher4 exDB exGrade1 (by decide)
      exGradeReq).1 rfl).1,
   ((C3_grade_edit_delete_ownership aAdmin exDB exGrade1 (by decide)
      exGradeReq).2 rfl).1⟩

/-- C4 counterexample: teacher 2 created nothing, is assigned nothing and
owns no class in `exDB`, yet its update and delete of student 7 succeed —
student writes carry no ownership restriction — and the Teacher-row list
(`/teachers`) is denied to a Teacher actor, so Teacher reads do not return
all rows. -/
theorem C4_counterexample :
    (update_student aTeacher2 7 exStudentReq exDB).1 =
        Response.ok { exStudent7 with name := some "New Name" } ∧
    (delete_student aTeacher2 7 exDB).1 = Response.ok "Deleted successfully" ∧
    (teachers aTeacher2 exDB).1 = Response.accessDenied := by decide

/-- C4 amended: for a Teacher-role actor, update and delete of any
existing Student row are allowed with no ownership condition, reads of
Student and ClassRoom return all rows, and Teacher-row management
(list, create, update, delete) is denied to Teacher actors. -/
theorem C4_amended_teacher_scope (actor : Actor) (h : actor.role = "Teacher")
    (db : DB) (id tid : Nat) (sreq : StudentReq) (n e : String) :
    ((db.students.find? (fun s => s.id == id)).isSome →
        (update_student actor id sreq db).1 ≠ Response.accessDenied ∧
        (delete_student actor id db).1 ≠ Response.accessDenied) ∧
    (api_students_get actor db).1 = Response.ok db.students ∧
    (api_classes_get actor db).1 = Response.ok db.classes ∧
    (teachers actor db).1 = Response.accessDenied ∧
    (add_teacher actor n e db).1 = Response.accessDenied ∧
    (edit_teacher actor tid n e db).1 = Response.accessDenied ∧
    (delete_teacher actor tid db).1 = Response.accessDenied := by
  refine ⟨?_, ?_, ?_, ?_, ?_, ?_, ?_⟩
  · intro hid
    obtain ⟨s, hfind⟩ := Option.isSome_iff_exists.mp hid
    exact ⟨by simp [update_student, h, hfind], by simp [delete_student, h, hfind]⟩
  · simp [api_students_get, h]
  · simp [api_classes_get, h]
  · simp [teachers, h]
  · simp [add_teacher, h]
  · simp [edit_teacher, h]
  · simp [delete_teacher, h]

/-- Witness for the amended C4: teacher 4 updates student 7 (unrelated to
it) successfully and is denied the Teacher-row list. -/
theorem C4_witness :
    (update_student aTeacher4 7 exStudentReq exDB).1 ≠ Response.accessDenied ∧
    (teachers aTeacher4 exDB).1 = Response.accessDenied :=
  ⟨((C4_amended_teacher_scope aTeacher4 rfl exDB 7 5 exStudentReq "n" "e").1
      (by decide)).1,
   (C4_amended_teacher_scope aTeacher4 rfl exDB 7 5 exStudentReq "n" "e").2.2.2.1⟩

/-- C5 counterexample: an Admin-role actor is denied the assign and
unassign actions on subject 2 of the sample database — those two handlers
gate on `role == 'Teacher'`, so Admin ALLOW is not unconditional. -/
theorem C5_counterexample :
    (assign_subject aAdmin 2 exDB).1 = Response.accessDenied ∧
    (unassign_subject aAdmin 2 exDB).1 = Response.accessDenied := by decide

/-- C5 amended: an Admin-role actor is allowed (never access-denied, with
no ownership or target condition beyond existence of the target row) on
every list, read, create, update and delete handler of every entity —
but the assign and unassign actions on Subject are Teacher-only and deny
an Admin. -/
theorem C5_amended_admin_allow (actor : Actor) (h : actor.role = "Admin")
    (db : DB) (sid uid subid gid : Nat) (sreq : StudentReq)
    (cname : Option String) (n e name code description : String)
    (today : Nat × Nat × Nat) (greq : GradeReq) :
    (api_students_get actor db).1 ≠ Response.accessDenied ∧
    (api_students_post actor sreq db).1 ≠ Response.accessDenied ∧
    ((db.students.find? (fun s => s.id == sid)).isSome →
        (get_student actor sid db).1 ≠ Response.accessDenied ∧
        (update_student actor sid sreq db).1 ≠ Response.accessDenied ∧
        (delete_student actor sid db).1 ≠ Response.accessDenied) ∧
    (api_classes_get actor db).1 ≠ Response.accessDenied ∧
    (api_classes_post actor cname db).1 ≠ Response.accessDenied ∧
    (teachers actor db).1 ≠ Response.accessDenied ∧
    (add_teacher actor n e db).1 ≠ Response.accessDenied ∧
    ((db.users.find? (fun u => u.id == uid)).isSome →
        (edit_teacher actor uid n e db).1 ≠ Response.accessDenied ∧
        (delete_teacher actor uid db).1 ≠ Response.accessDenied) ∧
    (subjects actor db).1 ≠ Response.accessDenied ∧
    (add_subject actor name code description db).1 ≠ Response.accessDenied ∧
    ((db.subjects.find? (fun s => s.id == subid)).isSome →
        (edit_subject actor subid name code description db).1 ≠ Response.accessDenied ∧
        (delete_subject actor subid db).1 ≠ Response.accessDenied) ∧
    (api_grades actor db).1 ≠ Response.accessDenied ∧
    (add_grade actor today greq db).1 ≠ Response.accessDenied ∧
    ((db.grades.find? (fun t => t.id == gid)).isSome →
        (edit_grade actor gid greq db).1 ≠ Response.accessDenied ∧
        (delete_grade actor gid db).1 ≠ Response.accessDenied) ∧
    (assign_subject actor subid db).1 = Response.accessDenied ∧
    (unassign_subject actor subid db).1 = Response.accessDenied := by
  refine ⟨by simp [api_students_get, h], by simp [api_students_post, h], ?_,
          by simp [api_classes_get, h], by simp [api_classes_post, h],
          by simp [teachers, h], by simp [add_teacher, h], ?_,
          by simp [subjects, h], ?_, ?_,
          by simp [api_grades, h], by simp [add_grade, h], ?_,
          by simp [assign_subject, h], by simp [unassign_subject, h]⟩
  · intro hid
    obtain ⟨s, hfind⟩ := Option.isSome_iff_exists.mp hid
    exact ⟨by simp [get_student, h, hfind], by simp [update_student, h, hfind],
           by simp [delete_student, h, hfind]⟩
  · intro hid
    obtain ⟨u, hfind⟩ := Option.isSome_iff_exists.mp hid
    exact ⟨by simp [edit_teacher, h, hfind], by simp [delete_teacher, h, hfind]⟩
  · simp only [add_subject]
    rw [if_neg (by simp [h])]
    split
    · simp
    split
    · simp
    split <;> simp
  · intro hid
    obtain ⟨s, hfind⟩ := Option.isSome_iff_exists.mp hid
    constructor
    · simp only [edit_subject]
      rw [if_neg (by simp [h]), hfind]
      dsimp only
      rw [if_neg (by simp [h])]
      split
      · simp
      · split
        · simp
        · simp [edit_subject_apply]
    · simp [delete_subject, h, hfind]
  · intro hid
    obtain ⟨g, hfind⟩ := Option.isSome_iff_exists.mp hid
    constructor
    · rcases hd : greq.date_given with _ | d <;> simp [edit_grade, h, hfind, hd]
    · simp [delete_grade, h, hfind]

/-- Witness for the amended C5: the Admin actor is allowed the student
list but denied assigning itself subject 1. -/
theorem C5_witness :
    (api_students_get aAdmin exDB).1 ≠ Response.accessDenied ∧
    (assign_subject aAdmin 1 exDB).1 = Response.accessDenied := by
  have hfull := C5_amended_admin_allow aAdmin rfl exDB 7 4 1 1 exStudentReq
    none "n" "e" "nm" "cd" "d" (2026, 1, 1) exGradeReq
  exact ⟨hfull.1, hfull.2.2.2.2.2.2.2.2.2.2.2.2.2.2.1⟩

/-- C6: for a Parent-role actor the grade list is exactly the grades of
students in the actor's guardianship set (the union over all linked
students), and an empty children set yields the allowed outcome with an
empty list rather than a denial. -/
theorem C6_parent_grade_visibility (actor : Actor) (h : actor.role = "Parent")
    (db : DB) :
    api_grades actor db =
      (Response.ok (db.grades.filter
        (fun g => (childIds db actor.id).contains g.student_id)), db) ∧
    (childIds db actor.id = [] → api_grades actor db = (Response.ok [], db)) := by
  constructor
  · by_cases hc : childIds db actor.id = [] <;>
      simp [api_grades, gradesForActor, h, hc]
  · intro hc
    simp [api_grades, gradesForActor, h, hc]

/-- Witness for C6: parent 9 guardians only student 7, so it sees exactly
grade 1 and not grade 2. -/
theorem C6_witness :
    api_grades aParent exDB =
      (Response.ok (exDB.grades.filter
        (fun g => (childIds exDB aParent.id).contains g.student_id)), exDB) :=
  (C6_parent_grade_visibility aParent rfl exDB).1

/-- C7: for a Student-role actor the grade list resolves the actor to a
Student row by display name — `List.find?` returns the first matching row
in table order, so when several students share the name the first one
wins — and returns exactly that student's grades; with no matching row
the result is the allowed outcome with an empty list. -/
theorem C7_student_grade_visibility (actor : Actor) (h : actor.role = "Student")
    (db : DB) :
    (∀ st, db.students.find? (fun s => s.name == actor.name) = some st →
        api_grades actor db =
          (Response.ok (db.grades.filter (fun g => g.student_id == st.id)), db)) ∧
    (db.students.find? (fun s => s.name == actor.name) = none →
        api_grades actor db = (Response.ok [], db)) := by
  constructor
  · intro st hst
    simp [api_grades, gradesForActor, h, hst]
  · intro hst
    simp [api_grades, gradesForActor, h, hst]

/-- Witness for C7: students 7 and 8 both carry the actor's display name;
the resolved student is the earlier row 7, so only its grades are
returned. -/
theorem C7_witness :
    api_grades aStudent exDB =
      (Response.ok (exDB.grades.filter
        (fun g => g.student_id == exStudent7.id)), exDB) :=
  (C7_student_grade_visibility aStudent rfl exDB).1 exStudent7 (by decide)

/-- C8: the serialized percentage is `grade_value / max_grade * 100` when
`max_grade` is positive, and the division is guarded — a non-positive
`max_grade` yields 0 instead of a division by zero. -/
theorem C8_percentage_division_guard (g : GradeRow) :
    (0 < g.max_grade → GradeRow.percentage g = g.grade_value / g.max_grade * 100) ∧
    (¬ 0 < g.max_grade → GradeRow.percentage g = 0) := by
  constructor <;> intro h <;> simp [GradeRow.percentage, h]

/-- Witness for C8: a grade of 85 out of 100 serializes to 85 percent, and
a zero `max_grade` serializes to 0 rather than dividing by zero. -/
theorem C8_witness :
    GradeRow.percentage exGrade1 = 85 ∧
    GradeRow.percentage ⟨3, 7, 1, 4, 85, 0, "Exam", none, none⟩ = 0 := by
  constructor
  · rw [(C8_percentage_division_guard exGrade1).1 (by norm_num [exGrade1])]
    norm_num [exGrade1]
  · exact (C8_percentage_division_guard ⟨3, 7, 1, 4, 85, 0, "Exam", none, none⟩).2
      (by norm_num)

/-- C9: a grade created through `add_grade` by a Teacher-role actor always
carries the actor's own id as `teacher_id`, whatever `teacher_id` the form
submitted; an Admin-role caller's form-supplied `teacher_id` is applied. -/
theorem C9_add_grade_forces_teacher_id (actor : Actor) (today : Nat × Nat × Nat)
    (req : GradeReq) (db : DB) :
    (actor.role = "Teacher" →
        ∀ g, (add_grade actor today req db).1 = Response.ok g →
          g.teacher_id = actor.id) ∧
    (actor.role = "Admin" → ∀ tid, req.teacher_id = some tid →
        ∀ g, (add_grade actor today req db).1 = Response.ok g →
          g.teacher_id = tid) := by
  constructor
  · intro h g hgok
    simp [add_grade, h] at hgok
    subst hgok
    rfl
  · intro h tid htid g hgok
    simp [add_grade, h, htid] at hgok
    subst hgok
    rfl

/-- Witness for C9: teacher 4 submits a form naming teacher 5, yet the
created grade's `teacher_id` is 4; the Admin submitting the same form
creates a grade with `teacher_id` 5. -/
theorem C9_witness :
    (⟨100, 7, 1, 4, 50, 60, "Quiz", some "desc", some (2026, 1, 1)⟩ :
        GradeRow).teacher_id = 4 ∧
    (⟨100, 7, 1, 5, 50, 60, "Quiz", some "desc", some (2026, 1, 1)⟩ :
        GradeRow).teacher_id = 5 :=
  ⟨(C9_add_grade_forces_teacher_id aTeacher4 (2026, 1, 1) exGradeReq exDB).1
      rfl _ (by decide),
   (C9_add_grade_forces_teacher_id aAdmin (2026, 1, 1) exGradeReq exDB).2
      rfl 5 rfl _ (by decide)⟩

/-- C10: for a Teacher-role actor and an existing subject, assigning a
subject already in the actor's assigned set and unassigning a subject not
in it are both no-ops: the whole database — the `teacher_subject` set and
the commit counter included — is returned unchanged, so no duplicate
membership arises and no mutation is committed. -/
theorem C10_assign_unassign_idempotent (actor : Actor)
    (h : actor.role = "Teacher") (db : DB) (s : SubjectRow)
    (hs : db.subjects.find? (fun t => t.id == s.id) = some s) :
    ((actor.id, s.id) ∈ db.teacher_subject →
        assign_subject actor s.id db =
          (Response.ok "You are already assigned to this subject!", db)) ∧
    ((actor.id, s.id) ∉ db.teacher_subject →
        unassign_subject actor s.id db =
          (Response.ok "You are not assigned to this subject!", db)) := by
  constructor
  · intro hmem
    simp [assign_subject, h, hs, hmem]
  · intro hmem
    simp [unassign_subject, h, hs, hmem]

/-- Witness for C10: teacher 4 is already assigned subject 2, so assign is
a no-op; it is not assigned subject 1, so unassign is a no-op — in both
cases the database, commit counter included, is unchanged. -/
theorem C10_witness :
    assign_subject aTeacher4 2 exDB =
      (Response.ok "You are already assigned to this subject!", exDB) ∧
    unassign_subject aTeacher4 1 exDB =
      (Response.ok "You are not assigned to this subject!", exDB) :=
  ⟨(C10_assign_unassign_idempotent aTeacher4 rfl exDB exSubjMath (by decide)).1
      (by decide),
   (C10_assign_unassign_idempotent aTeacher4 rfl exDB exSubjPhysics (by decide)).2
      (by decide)⟩

end EduTrack
